import Mathlib

/-!
# Verification of `cordova-plugin-checker.js`

A shallow embedding of the update-checker script in
`src/cordova-plugin-checker.js`, together with theorems settling the
specification claims about it.

Modelling conventions:
* JavaScript strings are Lean `String`s.
* `String.prototype.split(sep)` with a one-character separator is modelled by
  `jsSplit` (character-level splitting, which agrees with the JS semantics for
  single-character separators, including the leading/trailing empty pieces).
* `Number(s)` is modelled by `jsNumber`, covering the values that occur in the
  script's domain: optional JS whitespace around an optionally signed run of
  decimal digits (an all-whitespace or empty string converts to 0); every other
  string converts to NaN.  Exotic numeric literal forms of the JS builtin
  (hex, exponents, `Infinity`) are outside the modelled domain.
* `undefined` obtained by reading past the end of an array behaves as NaN in
  the numeric comparisons of the script, so array indexing is modelled by
  `partAt`, which returns `JSNum.nan` out of range.
* Filesystem access and subprocess execution are modelled by an `Env` record
  (`fs.existsSync` and `execPromise`), and the observable actions of a run
  (directory changes, executed commands, console output, prompts) are
  collected in an `Event` trace.
-/

/-- JS number values relevant to the script: NaN or an integer. -/
inductive JSNum where
  | nan : JSNum
  | num : Int → JSNum
deriving DecidableEq, Repr

/-- JS `>` on numbers: any comparison involving NaN is false. -/
def jsGt : JSNum → JSNum → Bool
  | JSNum.num a, JSNum.num b => a > b
  | _, _ => false

/-- JS `<` on numbers: any comparison involving NaN is false. -/
def jsLt : JSNum → JSNum → Bool
  | JSNum.num a, JSNum.num b => a < b
  | _, _ => false

/-- JS whitespace characters (the ASCII ones; the Unicode space characters do
not occur in the modelled domain). -/
def isJsWhitespace (c : Char) : Bool :=
  c = ' ' || c = '\t' || c = '\n' || c = '\r' || c = '\x0b' || c = '\x0c'

/-- `String.prototype.trim()` on the character list. -/
def jsTrimList (cs : List Char) : List Char :=
  ((cs.dropWhile isJsWhitespace).reverse.dropWhile isJsWhitespace).reverse

/-- `String.prototype.trim()`. -/
def jsTrim (s : String) : String :=
  String.mk (jsTrimList s.toList)

/-- Character-level splitting on a separator character.  `[]` maps to `[[]]`,
matching JS `"".split(sep) === [""]`. -/
def splitOnChar (sep : Char) : List Char → List (List Char)
  | [] => [[]]
  | c :: cs =>
    if c = sep then [] :: splitOnChar sep cs
    else
      match splitOnChar sep cs with
      | [] => [[c]]
      | g :: gs => (c :: g) :: gs

/-- `String.prototype.split(sep)` for a one-character separator. -/
def jsSplit (s : String) (sep : Char) : List String :=
  (splitOnChar sep s.toList).map (fun cs => String.mk cs)

/-- Decimal value of a digit list, as JS `Number` computes it. -/
def decDigitsVal (cs : List Char) : Int :=
  cs.foldl (fun a c => a * 10 + ((c.toNat - '0'.toNat : Nat) : Int)) 0

/-- `Number(s)` on the modelled domain: trims JS whitespace; an empty remainder
converts to 0; an optionally signed nonempty run of decimal digits converts to
its value; anything else converts to NaN. -/
def jsNumber (s : String) : JSNum :=
  match jsTrimList s.toList with
  | [] => JSNum.num 0
  | '+' :: rest =>
    if rest.isEmpty then JSNum.nan
    else if rest.all Char.isDigit then JSNum.num (decDigitsVal rest)
    else JSNum.nan
  | '-' :: rest =>
    if rest.isEmpty then JSNum.nan
    else if rest.all Char.isDigit then JSNum.num (-(decDigitsVal rest))
    else JSNum.nan
  | cs =>
    if cs.all Char.isDigit then JSNum.num (decDigitsVal cs)
    else JSNum.nan

/-- `String.prototype.toLowerCase()` on one character, for the ASCII domain
(the answers the script compares are ASCII). -/
def jsCharToLower (c : Char) : Char :=
  if 'A' ≤ c ∧ c ≤ 'Z' then Char.ofNat (c.toNat + 32) else c

/-- `String.prototype.toLowerCase()` (ASCII domain). -/
def jsToLower (s : String) : String :=
  String.mk (s.toList.map jsCharToLower)

/-- `parts[i]`: out-of-range indexing yields `undefined`, which behaves as NaN
in the script's numeric comparisons. -/
def partAt (ps : List JSNum) (i : Nat) : JSNum :=
  (ps.get? i).getD JSNum.nan

/-- `version.split('.').map(Number)`. -/
def versionParts (s : String) : List JSNum :=
  (jsSplit s '.').map jsNumber

/-- The `for (let i = 0; i < 3; i++)` loop of `compareVersions`, with its early
returns, iterating over the remaining index list (`[0, 1, 2]` at the start).
Falling off the end of the loop returns `false`. -/
def cmpLoop (currentParts latestParts : List JSNum) : List Nat → Bool
  | [] => false
  | i :: rest =>
    if jsGt (partAt latestParts i) (partAt currentParts i) then true
    else if jsLt (partAt latestParts i) (partAt currentParts i) then false
    else cmpLoop currentParts latestParts rest

/-- `compareVersions(current, latest)` (lines 116-130 of the script). -/
def compareVersions (current latest : String) : Bool :=
  if current = "unknown" then true
  else
    cmpLoop (versionParts current) (versionParts latest) [0, 1, 2]

/-- A parsed plugin record `{ id, version }`. -/
structure InstalledPlugin where
  id : String
  version : String
deriving DecidableEq, Repr

/-- A character stripped from the beginning of a line by
`line.replace(/^[>\s]+/, '')`. -/
def isMarkerChar (c : Char) : Bool :=
  c = '>' || isJsWhitespace c

/-- The body of the `lines.map` in `parsePluginList`: strip leading markers,
split on spaces, take the first two pieces, default the version to
`"unknown"` when the second piece is `undefined` or `""` (both falsy). -/
def parseLine (line : String) : InstalledPlugin :=
  let cleanLine := String.mk (line.toList.dropWhile isMarkerChar)
  let pieces := jsSplit cleanLine ' '
  let id := pieces.headD ""
  let version :=
    match pieces.get? 1 with
    | none => "unknown"
    | some v => if v = "" then "unknown" else v
  { id := id, version := version }

/-- `parsePluginList(output)` (lines 23-41 of the script). -/
def parsePluginList (output : String) : List InstalledPlugin :=
  let lines := (jsSplit output '\n').filter (fun line => jsTrim line ≠ "")
  (lines.map parseLine).filter
    (fun plugin => plugin.id ≠ "" && plugin.id ≠ "undefined")

/-- The ambient world: `fs.existsSync` and `execPromise`.  `exec cmd` returns
`Except.ok stdout` when the subprocess succeeds, `Except.error message` (the
rejection's `error.message`) when it fails. -/
structure Env where
  pathExists : String → Bool
  exec : String → Except String String

/-- Observable actions of a run: `process.chdir`, a subprocess invocation,
console output (`console.log`), console error output (`console.error`), and an
interactive question. -/
inductive Event where
  | chdir (p : String)
  | execCmd (cmd : String)
  | logOut (s : String)
  | logErr (s : String)
  | prompt (q : String)
deriving DecidableEq, Repr

/-- A record pushed onto `updateResults`.  JS objects omit absent fields;
`Option` models presence. -/
structure UpdateResult where
  plugin : String
  currentVersion : String
  latestVersion : Option String
  hasUpdate : Option Bool
  error : Option String
deriving DecidableEq, Repr

/-- Truthiness of an optional string field (absent and `""` are falsy). -/
def truthyStr : Option String → Bool
  | none => false
  | some s => s ≠ ""

/-- Truthiness of an optional boolean field. -/
def truthyBool : Option Bool → Bool
  | none => false
  | some b => b

/-- JS template interpolation of a possibly-absent string (prints
`"undefined"` for an absent value). -/
def optStr : Option String → String
  | none => "undefined"
  | some s => s

/-- The `cordova plugin remove <id> --force` command line. -/
def removeCommand (pluginId : String) : String :=
  "cordova plugin remove " ++ pluginId ++ " --force"

/-- The `cordova plugin add <id>` command line. -/
def addCommand (pluginId : String) : String :=
  "cordova plugin add " ++ pluginId

/-- The `npm view <id> version` command line. -/
def npmViewCommand (pluginId : String) : String :=
  "npm view " ++ pluginId ++ " version"

/-- `updatePlugin(pluginId)` (lines 43-54): forcible remove, then add; the
add is only reached when the remove resolved; any rejection is caught, logged
and turned into `false`. -/
def updatePlugin (env : Env) (pluginId : String) : Bool × List Event :=
  let log0 := Event.logOut ("\nUpdating " ++ pluginId ++ "...")
  match env.exec (removeCommand pluginId) with
  | Except.error e =>
    (false, [log0, Event.execCmd (removeCommand pluginId),
             Event.logErr ("Failed to update " ++ pluginId ++ ": " ++ e)])
  | Except.ok _ =>
    match env.exec (addCommand pluginId) with
    | Except.error e =>
      (false, [log0, Event.execCmd (removeCommand pluginId),
               Event.execCmd (addCommand pluginId),
               Event.logErr ("Failed to update " ++ pluginId ++ ": " ++ e)])
    | Except.ok _ =>
      (true, [log0, Event.execCmd (removeCommand pluginId),
              Event.execCmd (addCommand pluginId),
              Event.logOut ("Successfully updated " ++ pluginId)])

/-- One iteration of the `for (const plugin of installedPlugins)` loop
(lines 81-107): `continue` on a falsy or `'undefined'` id produces no result;
otherwise the npm lookup either yields a full result or, on rejection, an
error result, and the loop goes on. -/
def checkPluginStep (env : Env) (plugin : InstalledPlugin) :
    Option UpdateResult × List Event :=
  if plugin.id = "" ∨ plugin.id = "undefined" then (none, [])
  else
    match env.exec (npmViewCommand plugin.id) with
    | Except.ok npmInfo =>
      let latestVersion := jsTrim npmInfo
      let currentVersion := plugin.version
      let hasUpdate := compareVersions currentVersion latestVersion
      (some { plugin := plugin.id
              currentVersion := currentVersion
              latestVersion := some latestVersion
              hasUpdate := some hasUpdate
              error := none },
       [Event.execCmd (npmViewCommand plugin.id)])
    | Except.error e =>
      (some { plugin := plugin.id
              currentVersion := plugin.version
              latestVersion := none
              hasUpdate := none
              error := some "Failed to check for updates" },
       [Event.execCmd (npmViewCommand plugin.id),
        Event.logErr ("Error checking plugin " ++ plugin.id ++ ": " ++ e)])

/-- The whole plugin loop, accumulating `updateResults` and the trace. -/
def checkLoop (env : Env) : List InstalledPlugin → List UpdateResult × List Event
  | [] => ([], [])
  | p :: rest =>
    let step := checkPluginStep env p
    let tail := checkLoop env rest
    (step.1.toList ++ tail.1, step.2 ++ tail.2)

/-- `checkPluginUpdates(projectPath)` (lines 56-113): precondition checks,
`process.chdir`, plugin listing, and the per-plugin loop.  The result carries
the `Except` outcome (any thrown error rewrapped as
`Failed to check plugin updates: <message>` by the surrounding catch), the
process working directory after the call, and the trace.  `path.join` is
modelled by appending `"/config.xml"`. -/
def checkPluginUpdates (env : Env) (projectPath : String) (cwd : String) :
    Except String (List UpdateResult) × String × List Event :=
  if env.pathExists projectPath = false then
    (Except.error ("Failed to check plugin updates: Project path does not exist: "
        ++ projectPath), cwd, [])
  else if env.pathExists (projectPath ++ "/config.xml") = false then
    (Except.error ("Failed to check plugin updates: Not a Cordova project: "
        ++ projectPath ++ " (config.xml not found)"), cwd, [])
  else
    match env.exec "cordova plugin list" with
    | Except.error e =>
      (Except.error ("Failed to check plugin updates: " ++ e), projectPath,
       [Event.chdir projectPath, Event.execCmd "cordova plugin list"])
    | Except.ok pluginListOutput =>
      let installedPlugins := parsePluginList pluginListOutput
      let looped := checkLoop env installedPlugins
      (Except.ok looped.1, projectPath,
       Event.chdir projectPath :: Event.execCmd "cordova plugin list" :: looped.2)

/-- The question text of the interactive prompt (line 171). -/
def questionFor (r : UpdateResult) : String :=
  "\nDo you want to update " ++ r.plugin ++ " from " ++ r.currentVersion
    ++ " to " ++ optStr r.latestVersion ++ "? (y/n): "

/-- The `for (const plugin of pluginsToUpdate)` loop (lines 169-177): one
prompt per eligible result, consuming one stdin line each; `updatePlugin` is
invoked exactly on a case-insensitive `"y"` answer. -/
def updateLoop (env : Env) :
    List UpdateResult → List String → List Event
  | [], _ => []
  | r :: rest, answers =>
    let answer := answers.headD ""
    (Event.prompt (questionFor r)
        :: (if jsToLower answer = "y" then (updatePlugin env r.plugin).2 else []))
      ++ updateLoop env rest answers.tail

/-- The report line printed for one result in the `results.forEach`
(lines 146-165), color codes omitted. -/
def reportLine (result : UpdateResult) : Event :=
  if truthyStr result.error then
    Event.logOut (result.plugin ++ ": " ++ optStr result.error)
  else
    Event.logOut ("\n    Plugin: " ++ result.plugin
      ++ "\n    Current Version: " ++ result.currentVersion
      ++ "\n    Latest Version: " ++ optStr result.latestVersion
      ++ "\n    Update Available: "
      ++ (if truthyBool result.hasUpdate then "Yes - update available!" else "No")
      ++ "\n                ")

/-- Outcome of a whole session: the process exit code (1 via
`process.exit(1)` in the catch, 0 on normal completion), the trace, and the
final working directory. -/
structure SessionResult where
  exitCode : Nat
  events : List Event
  finalCwd : String
deriving DecidableEq, Repr

/-- Model of `path.resolve(projectPath)` against the current working
directory: a path starting with `/` is already absolute, anything else is
resolved against `cwd` (no normalization of `.` or `..`, which the claims do
not need). -/
def resolvePath (cwd p : String) : String :=
  if p.toList.headD ' ' = '/' then p else cwd ++ "/" ++ p

/-- `process.argv[2] || '.'`: an absent or empty argument is falsy. -/
def argOrDot : Option String → String
  | none => "."
  | some "" => "."
  | some p => p

/-- `checkUpdates()` (lines 132-188): resolve the path, run the check, render
the report, drive the interactive update loop; on any rejection print the
error (whose JS stringification prefixes `Error: `) and exit with code 1. -/
def checkUpdates (env : Env) (argv2 : Option String) (cwd : String)
    (answers : List String) : SessionResult :=
  let projectPath := argOrDot argv2
  let absolutePath := resolvePath cwd projectPath
  let ev0 := Event.logOut ("Checking plugins in project: " ++ absolutePath)
  match checkPluginUpdates env absolutePath cwd with
  | (Except.error e, cwd2, evs) =>
    { exitCode := 1
      events := ev0 :: evs
        ++ [Event.logErr ("Failed to check plugin updates: Error: " ++ e)]
      finalCwd := cwd2 }
  | (Except.ok results, cwd2, evs) =>
    let reportEvents := results.map reportLine
    let pluginsToUpdate :=
      results.filter (fun r => !(truthyStr r.error) && truthyBool r.hasUpdate)
    let updateEvents :=
      if pluginsToUpdate.length > 0 then updateLoop env pluginsToUpdate answers
      else [Event.logOut "\nAll plugins are up to date!"]
    { exitCode := 0
      events := ev0 :: Event.logOut "\nPlugin Update Check Results:" :: evs
        ++ reportEvents ++ updateEvents
      finalCwd := cwd2 }

/-! ## Spec-side definitions and helper predicates -/

/-- The ordered component-wise comparison described by the spec: compare
major, then minor, then patch; true at the first component where the latest
value exceeds the current one, false at the first component where it is less,
false when all three are equal. -/
def specCompareThree (c0 c1 c2 l0 l1 l2 : Int) : Bool :=
  if l0 > c0 then true
  else if l0 < c0 then false
  else if l1 > c1 then true
  else if l1 < c1 then false
  else if l2 > c2 then true
  else if l2 < c2 then false
  else false

/-- Whether the loop body of `compareVersions` decides (returns) at index
`i`: one of the two strict comparisons holds there. -/
def decidesAt (currentParts latestParts : List JSNum) (i : Nat) : Bool :=
  jsGt (partAt latestParts i) (partAt currentParts i)
    || jsLt (partAt latestParts i) (partAt currentParts i)

/-- The claim's reading of the line parser: split each cleaned line on the
FIRST space boundary, the version being the whole remainder of the line, and
defaulting to `"unknown"` when the line has no space. -/
def parseLineFirstSpace (line : String) : InstalledPlugin :=
  let cs := line.toList.dropWhile isMarkerChar
  let id := String.mk (cs.takeWhile (fun c => c ≠ ' '))
  match cs.dropWhile (fun c => c ≠ ' ') with
  | [] => { id := id, version := "unknown" }
  | _ :: tail => { id := id, version := String.mk tail }

/-- The claim's reading of `parsePluginList`, built on
`parseLineFirstSpace`. -/
def parsePluginListFirstSpace (output : String) : List InstalledPlugin :=
  (((jsSplit output '\n').filter (fun line => jsTrim line ≠ "")).map
      parseLineFirstSpace).filter
    (fun plugin => plugin.id ≠ "" && plugin.id ≠ "undefined")

/-- The amended reading of the line parser: the id is the text before the
first space, the version is the SECOND space-separated field (the text between
the first space and the next space or the end of the line), defaulting to
`"unknown"` when that field is absent or empty. -/
def parseLineAmended (line : String) : InstalledPlugin :=
  let cs := line.toList.dropWhile isMarkerChar
  let id := String.mk (cs.takeWhile (fun c => c ≠ ' '))
  match cs.dropWhile (fun c => c ≠ ' ') with
  | [] => { id := id, version := "unknown" }
  | _ :: tail =>
    let second := tail.takeWhile (fun c => c ≠ ' ')
    { id := id
      version := if second.isEmpty then "unknown" else String.mk second }

/-- The amended reading of `parsePluginList`, built on `parseLineAmended`. -/
def parsePluginListAmended (output : String) : List InstalledPlugin :=
  (((jsSplit output '\n').filter (fun line => jsTrim line ≠ "")).map
      parseLineAmended).filter
    (fun plugin => plugin.id ≠ "" && plugin.id ≠ "undefined")

/-- The fatal message for a missing project path, as rewrapped by the catch
in `checkPluginUpdates`. -/
def noPathMsg (p : String) : String :=
  "Failed to check plugin updates: Project path does not exist: " ++ p

/-- The fatal message for a missing `config.xml`, as rewrapped by the catch
in `checkPluginUpdates`. -/
def noConfigMsg (p : String) : String :=
  "Failed to check plugin updates: Not a Cordova project: " ++ p
    ++ " (config.xml not found)"

/-- The single `UpdateResult` the plugin loop pushes for one plugin whose id
passed the parser's filter. -/
def lookupResult (env : Env) (p : InstalledPlugin) : UpdateResult :=
  match env.exec (npmViewCommand p.id) with
  | Except.ok npmInfo =>
    { plugin := p.id
      currentVersion := p.version
      latestVersion := some (jsTrim npmInfo)
      hasUpdate := some (compareVersions p.version (jsTrim npmInfo))
      error := none }
  | Except.error _ =>
    { plugin := p.id
      currentVersion := p.version
      latestVersion := none
      hasUpdate := none
      error := some "Failed to check for updates" }

/-- Event classifier: interactive prompts. -/
def isPromptEvent : Event → Bool
  | Event.prompt _ => true
  | _ => false

/-- Event classifier: subprocess invocations. -/
def isExecEvent : Event → Bool
  | Event.execCmd _ => true
  | _ => false

/-- Event classifier: working-directory changes. -/
def isChdirEvent : Event → Bool
  | Event.chdir _ => true
  | _ => false

/-- The prompts of a trace, in order. -/
def promptEvents (evs : List Event) : List Event :=
  evs.filter isPromptEvent

/-- The subprocess invocations of a trace, in order. -/
def execEvents (evs : List Event) : List Event :=
  evs.filter isExecEvent

/-- Whether an `execPromise` outcome resolved. -/
def exceptIsOk : Except String String → Bool
  | Except.ok _ => true
  | Except.error _ => false

/-- A world where every path exists and every subprocess succeeds with empty
output. -/
def envAllOk : Env :=
  { pathExists := fun _ => true, exec := fun _ => Except.ok "" }

/-- A world where no path exists. -/
def envNoPath : Env :=
  { pathExists := fun _ => false, exec := fun _ => Except.ok "" }

/-- A world where only `/proj` exists (no `config.xml` inside it). -/
def envProjOnly : Env :=
  { pathExists := fun p => p = "/proj", exec := fun _ => Except.ok "" }

/-- A world with a valid project whose listing returns one plugin and whose
registry lookups all fail. -/
def envLookupFails : Env :=
  { pathExists := fun _ => true
    exec := fun c =>
      if c = "cordova plugin list" then Except.ok "cordova-plugin-camera 1.0.0"
      else Except.error "boom" }

/-- A world where every subprocess fails. -/
def envExecFails : Env :=
  { pathExists := fun _ => true, exec := fun _ => Except.error "boom" }

/-- A sample outdated-plugin result, used to exercise the interactive
updater. -/
def sampleResult : UpdateResult :=
  { plugin := "p"
    currentVersion := "1.0.0"
    latestVersion := some "2.0.0"
    hasUpdate := some true
    error := none }

/-! ## Helper lemmas -/

theorem splitOnChar_ne_nil (sep : Char) (cs : List Char) :
    splitOnChar sep cs ≠ [] := by
  induction cs with
  | nil => simp [splitOnChar]
  | cons c cs ih =>
    by_cases h : c = sep
    · simp [splitOnChar, h]
    · simp only [splitOnChar, if_neg h]
      cases hs : splitOnChar sep cs with
      | nil => simp
      | cons g gs => simp

theorem splitOnChar_eq (sep : Char) (cs : List Char) :
    splitOnChar sep cs =
      match cs.dropWhile (fun c => c ≠ sep) with
      | [] => [cs]
      | _ :: t => cs.takeWhile (fun c => c ≠ sep) :: splitOnChar sep t := by
  induction cs with
  | nil => simp [splitOnChar]
  | cons c cs ih =>
    simp only [decide_not] at ih ⊢
    by_cases h : c = sep
    · subst h
      simp [splitOnChar, List.dropWhile_cons, List.takeWhile_cons]
    · cases hd : List.dropWhile (fun x => !decide (x = sep)) cs with
      | nil =>
        simp only [hd] at ih
        simp [splitOnChar, h, hd, ih, List.dropWhile_cons, List.takeWhile_cons]
      | cons d t =>
        simp only [hd] at ih
        simp [splitOnChar, h, hd, ih, List.dropWhile_cons, List.takeWhile_cons]

theorem splitOnChar_headD (sep : Char) (cs : List Char) :
    (splitOnChar sep cs).headD [] = cs.takeWhile (fun c => c ≠ sep) := by
  rw [splitOnChar_eq]
  cases hd : cs.dropWhile (fun c => c ≠ sep) with
  | nil =>
    have h2 := List.takeWhile_append_dropWhile (p := fun c => decide (c ≠ sep)) (l := cs)
    rw [hd] at h2
    simpa using h2.symm
  | cons d t => simp

theorem String_mk_eq_empty_iff (cs : List Char) : String.mk cs = "" ↔ cs = [] := by
  constructor
  · intro h
    exact congrArg String.data h
  · intro h
    subst h
    rfl

theorem parsePieces_split (cs : List Char) :
    InstalledPlugin.mk (((splitOnChar ' ' cs).map (fun l => String.mk l)).headD "")
      (match ((splitOnChar ' ' cs).map (fun l => String.mk l)).get? 1 with
       | none => "unknown"
       | some v => if v = "" then "unknown" else v)
    = (match cs.dropWhile (fun c => c ≠ ' ') with
       | [] => InstalledPlugin.mk (String.mk (cs.takeWhile (fun c => c ≠ ' '))) "unknown"
       | _ :: tail =>
         InstalledPlugin.mk (String.mk (cs.takeWhile (fun c => c ≠ ' ')))
           (if (tail.takeWhile (fun c => c ≠ ' ')).isEmpty then "unknown"
            else String.mk (tail.takeWhile (fun c => c ≠ ' ')))) := by
  cases hd : cs.dropWhile (fun c => c ≠ ' ') with
  | nil =>
    rw [splitOnChar_eq]
    simp only [hd]
    have h2 := List.takeWhile_append_dropWhile (p := fun c => decide (c ≠ ' ')) (l := cs)
    rw [hd, List.append_nil] at h2
    simp only [decide_not] at h2
    simp [h2]
  | cons d tail =>
    rw [splitOnChar_eq]
    simp only [hd]
    cases ht : splitOnChar ' ' tail with
    | nil => exact absurd ht (splitOnChar_ne_nil ' ' tail)
    | cons g gs =>
      have hg : g = tail.takeWhile (fun c => c ≠ ' ') := by
        have hh := splitOnChar_headD ' ' tail
        rw [ht] at hh
        simpa using hh
      subst hg
      simp only [ht, List.map_cons, List.headD_cons, List.get?]
      cases hw : tail.takeWhile (fun c => c ≠ ' ') with
      | nil => simp [hw, String_mk_eq_empty_iff]
      | cons w ws =>
        have hne : String.mk (w :: ws) ≠ "" := by
          intro h
          exact absurd ((String_mk_eq_empty_iff (w :: ws)).mp h) (by simp)
        simp [hw, hne]

theorem parseLine_eq_amended (line : String) :
    parseLine line = parseLineAmended line :=
  parsePieces_split (line.toList.dropWhile isMarkerChar)

theorem mem_parsePluginList_id (output : String) :
    ∀ p ∈ parsePluginList output, p.id ≠ "" ∧ p.id ≠ "undefined" := by
  intro p hp
  unfold parsePluginList at hp
  have h := List.of_mem_filter hp
  simpa using h

theorem decidesAt_false_of_nan (cs ls : List JSNum) (i : Nat)
    (h : partAt cs i = JSNum.nan ∨ partAt ls i = JSNum.nan) :
    decidesAt cs ls i = false := by
  rcases h with h | h
  · cases hl : partAt ls i <;> simp [decidesAt, jsGt, jsLt, h, hl]
  · cases hc : partAt cs i <;> simp [decidesAt, jsGt, jsLt, h, hc]

theorem cmpLoop_skip (cs ls : List JSNum) (i : Nat) (rest : List Nat)
    (h : decidesAt cs ls i = false) :
    cmpLoop cs ls (i :: rest) = cmpLoop cs ls rest := by
  simp only [decidesAt, Bool.or_eq_false_iff] at h
  simp [cmpLoop, h.1, h.2]

theorem cmpLoop_false_of_all (cs ls : List JSNum) (idx : List Nat)
    (h : ∀ i ∈ idx, decidesAt cs ls i = false) :
    cmpLoop cs ls idx = false := by
  induction idx with
  | nil => rfl
  | cons i rest ih =>
    rw [cmpLoop_skip cs ls i rest (h i (by simp))]
    exact ih (fun j hj => h j (by simp [hj]))

/-! ## Claims C1 - C5 -/

/-- Claim C1: for `current ≠ "unknown"` whose first three dot-separated
segments (and those of `latest`) parse as integers, `compareVersions` is the
ordered component-wise comparison major, minor, patch: true at the first
component where latest exceeds current, false at the first where it is less,
false when all three are equal. -/
theorem compareVersions_componentwise (current latest : String)
    (c0 c1 c2 l0 l1 l2 : Int)
    (hcu : current ≠ "unknown")
    (hc0 : partAt (versionParts current) 0 = JSNum.num c0)
    (hc1 : partAt (versionParts current) 1 = JSNum.num c1)
    (hc2 : partAt (versionParts current) 2 = JSNum.num c2)
    (hl0 : partAt (versionParts latest) 0 = JSNum.num l0)
    (hl1 : partAt (versionParts latest) 1 = JSNum.num l1)
    (hl2 : partAt (versionParts latest) 2 = JSNum.num l2) :
    compareVersions current latest = specCompareThree c0 c1 c2 l0 l1 l2 := by
  simp only [compareVersions, if_neg hcu, cmpLoop]
  rw [hc0, hc1, hc2, hl0, hl1, hl2]
  simp only [jsGt, jsLt, specCompareThree, decide_eq_true_eq]

/-- Witness for claim C1 at the spec's own example `("1.2.3", "1.3.0")`. -/
theorem compareVersions_componentwise_witness :
    compareVersions "1.2.3" "1.3.0" = specCompareThree 1 2 3 1 3 0 :=
  compareVersions_componentwise "1.2.3" "1.3.0" 1 2 3 1 3 0 (by decide)
    (by decide) (by decide) (by decide) (by decide) (by decide) (by decide)

/-- Claim C2: the sentinel current version `"unknown"` always reports an
update, whatever the latest argument is. -/
theorem compareVersions_unknown (latest : String) :
    compareVersions "unknown" latest = true := by
  simp [compareVersions]

/-- Witness for claim C2 at the spec's own example. -/
theorem compareVersions_unknown_witness :
    compareVersions "unknown" "1.0.0" = true :=
  compareVersions_unknown "1.0.0"

/-- Claim C3 counterexample: the first segment of `"a.1.0"` is non-numeric,
no earlier component decides, yet `compareVersions "a.1.0" "a.2.0"` is true,
not false: the NaN component is skipped and the second component decides. -/
theorem compareVersions_malformed_cex :
    partAt (versionParts "a.1.0") 0 = JSNum.nan ∧
    compareVersions "a.1.0" "a.2.0" = true := by decide

/-- Claim C3 (amended): a non-numeric or missing component fails both numeric
comparisons and decides nothing — the loop skips it and continues with the
later components; the overall result is false when no component decides (in
particular when the components after the malformed one are also malformed or
equal), not unconditionally from the malformed component onward. -/
theorem compareVersions_malformed (current latest : String) (i : Nat)
    (hcu : current ≠ "unknown") (hi : i < 3)
    (hbad : partAt (versionParts current) i = JSNum.nan ∨
      partAt (versionParts latest) i = JSNum.nan)
    (hprev : ∀ j, j < i →
      decidesAt (versionParts current) (versionParts latest) j = false) :
    compareVersions current latest
        = cmpLoop (versionParts current) (versionParts latest)
            (List.drop (i + 1) [0, 1, 2])
      ∧ ((∀ j, j < 3 →
            decidesAt (versionParts current) (versionParts latest) j = false) →
          compareVersions current latest = false) := by
  have hbadf : decidesAt (versionParts current) (versionParts latest) i = false :=
    decidesAt_false_of_nan _ _ _ hbad
  constructor
  · simp only [compareVersions, if_neg hcu]
    interval_cases i
    · exact cmpLoop_skip _ _ _ _ hbadf
    · rw [cmpLoop_skip _ _ _ _ (hprev 0 (by omega))]
      exact cmpLoop_skip _ _ _ _ hbadf
    · rw [cmpLoop_skip _ _ _ _ (hprev 0 (by omega)),
        cmpLoop_skip _ _ _ _ (hprev 1 (by omega))]
      exact cmpLoop_skip _ _ _ _ hbadf
  · intro hall
    simp only [compareVersions, if_neg hcu]
    apply cmpLoop_false_of_all
    intro j hj
    apply hall
    simp only [List.mem_cons, List.not_mem_nil, or_false] at hj
    rcases hj with rfl | rfl | rfl <;> omega

/-- Witness for claim C3 (amended) on two fully malformed strings. -/
theorem compareVersions_malformed_witness :
    compareVersions "a.b.c" "x.y.z" = false :=
  (compareVersions_malformed "a.b.c" "x.y.z" 0 (by decide) (by decide)
      (by decide) (fun j hj => absurd hj (Nat.not_lt_zero j))).2
    (by intro j hj; interval_cases j <;> decide)

/-- Claim C4 counterexample: on the line `"a b c"` the parser keeps only the
second space-separated token as the version (`"b"`), while splitting on the
first space boundary would keep the whole remainder (`"b c"`). -/
theorem parsePluginList_firstSpace_cex :
    parsePluginList "a b c" = [{ id := "a", version := "b" }] ∧
    parsePluginListFirstSpace "a b c" = [{ id := "a", version := "b c" }] ∧
    parsePluginList "a b c" ≠ parsePluginListFirstSpace "a b c" := by decide

/-- Claim C4 (amended): `parsePluginList` splits on newlines, discards blank
and whitespace-only lines, strips leading `>` or whitespace from each line,
takes the text before the first space as the id and the SECOND space-separated
field (the text between the first space and the next space or end of line) as
the version, defaulting to `"unknown"` when that field is absent or empty; in
particular empty input yields the empty sequence (`parsePluginListAmended ""`
reduces to `[]`). -/
theorem parsePluginList_amended (output : String) :
    parsePluginList output = parsePluginListAmended output := by
  unfold parsePluginList parsePluginListAmended
  rw [funext parseLine_eq_amended]

/-- Witness for claim C4 (amended) on a listing with a marker prefix, a blank
line and a version-less line. -/
theorem parsePluginList_amended_witness :
    parsePluginList ">> foo 1.0\n\n bar\nundefined x"
      = parsePluginListAmended ">> foo 1.0\n\n bar\nundefined x" :=
  parsePluginList_amended ">> foo 1.0\n\n bar\nundefined x"

/-- Claim C5: every record produced by `parsePluginList` has a non-empty id
that is not the literal `"undefined"`, and the output is a subsequence of the
per-line parses, so it preserves the relative order of the input lines. -/
theorem parsePluginList_invariant (output : String) :
    (∀ p ∈ parsePluginList output, p.id ≠ "" ∧ p.id ≠ "undefined") ∧
    (parsePluginList output).Sublist ((jsSplit output '\n').map parseLine) := by
  refine ⟨mem_parsePluginList_id output, ?_⟩
  unfold parsePluginList
  refine (List.filter_sublist _).trans ?_
  exact (List.filter_sublist _).map parseLine

/-- Witness for claim C5 on a listing containing an `undefined` line. -/
theorem parsePluginList_invariant_witness :
    (parsePluginList "a 1\nundefined 2").Sublist
      ((jsSplit "a 1\nundefined 2" '\n').map parseLine) :=
  (parsePluginList_invariant "a 1\nundefined 2").2

/-! ## Claims C6 - C10 -/

theorem updatePlugin_filter_prompt (env : Env) (pluginId : String) :
    (updatePlugin env pluginId).2.filter isPromptEvent = [] := by
  cases h1 : env.exec (removeCommand pluginId) with
  | error e => simp [updatePlugin, h1, isPromptEvent]
  | ok s =>
    cases h2 : env.exec (addCommand pluginId) with
    | error e => simp [updatePlugin, h1, h2, isPromptEvent]
    | ok t => simp [updatePlugin, h1, h2, isPromptEvent]

theorem checkLoop_eq_map (env : Env) (l : List InstalledPlugin)
    (h : ∀ p ∈ l, p.id ≠ "" ∧ p.id ≠ "undefined") :
    (checkLoop env l).1 = l.map (lookupResult env) := by
  induction l with
  | nil => rfl
  | cons p rest ih =>
    have hp := h p (by simp)
    have hguard : ¬ (p.id = "" ∨ p.id = "undefined") := by
      rintro (h3 | h3)
      · exact hp.1 h3
      · exact hp.2 h3
    have htail := ih (fun q hq => h q (by simp [hq]))
    cases hx : env.exec (npmViewCommand p.id) with
    | ok s => simp [checkLoop, checkPluginStep, if_neg hguard, lookupResult, hx, htail]
    | error e => simp [checkLoop, checkPluginStep, if_neg hguard, lookupResult, hx, htail]

theorem checkLoop_filter_chdir (env : Env) (l : List InstalledPlugin) :
    (checkLoop env l).2.filter isChdirEvent = [] := by
  induction l with
  | nil => rfl
  | cons p rest ih =>
    by_cases hg : p.id = "" ∨ p.id = "undefined"
    · simp [checkLoop, checkPluginStep, hg, List.filter_append, ih]
    · cases hx : env.exec (npmViewCommand p.id) <;>
        simp [checkLoop, checkPluginStep, hg, hx, isChdirEvent, List.filter_append, ih]

/-- Claim C6: a missing project path and a present path lacking `config.xml`
raise distinct fatal errors, each before any `chdir` or any subprocess
invocation (the trace of `checkPluginUpdates` is empty), and on either fatal
error the session prints the error and exits with status code 1. -/
theorem checkPreconditionErrors (env : Env) (argv2 : Option String)
    (cwd ap : String) (answers : List String)
    (hap : ap = resolvePath cwd (argOrDot argv2)) :
    noPathMsg ap ≠ noConfigMsg ap ∧
    (env.pathExists ap = false →
      checkPluginUpdates env ap cwd = (Except.error (noPathMsg ap), cwd, []) ∧
      checkUpdates env argv2 cwd answers =
        { exitCode := 1
          events := [Event.logOut ("Checking plugins in project: " ++ ap),
            Event.logErr ("Failed to check plugin updates: Error: " ++ noPathMsg ap)]
          finalCwd := cwd }) ∧
    (env.pathExists ap = true → env.pathExists (ap ++ "/config.xml") = false →
      checkPluginUpdates env ap cwd = (Except.error (noConfigMsg ap), cwd, []) ∧
      checkUpdates env argv2 cwd answers =
        { exitCode := 1
          events := [Event.logOut ("Checking plugins in project: " ++ ap),
            Event.logErr ("Failed to check plugin updates: Error: " ++ noConfigMsg ap)]
          finalCwd := cwd }) := by
  subst hap
  refine ⟨?_, ?_, ?_⟩
  · intro h
    have hlen := congrArg String.length h
    simp only [noPathMsg, noConfigMsg, String.length_append] at hlen
    have e1 : ("Failed to check plugin updates: Project path does not exist: "
        : String).length = 61 := by decide
    have e2 : ("Failed to check plugin updates: Not a Cordova project: "
        : String).length = 55 := by decide
    have e3 : (" (config.xml not found)" : String).length = 23 := by decide
    rw [e1, e2, e3] at hlen
    omega
  · intro hno
    constructor
    · simp [checkPluginUpdates, hno, noPathMsg]
    · simp [checkUpdates, checkPluginUpdates, hno, noPathMsg]
  · intro hyes hno
    constructor
    · simp [checkPluginUpdates, hyes, hno, noConfigMsg]
    · simp [checkUpdates, checkPluginUpdates, hyes, hno, noConfigMsg]

/-- Witness for claim C6: both precondition failures at concrete worlds. -/
theorem checkPreconditionErrors_witness :
    checkPluginUpdates envNoPath "/proj" "/home"
        = (Except.error (noPathMsg "/proj"), "/home", []) ∧
    checkPluginUpdates envProjOnly "/proj" "/home"
        = (Except.error (noConfigMsg "/proj"), "/home", []) :=
  ⟨((checkPreconditionErrors envNoPath (some "/proj") "/home" "/proj" []
      (by decide)).2.1 rfl).1,
   ((checkPreconditionErrors envProjOnly (some "/proj") "/home" "/proj" []
      (by decide)).2.2 (by decide) (by decide)).1⟩

/-- Claim C7: with the preconditions satisfied and the plugin listing
succeeding, the checker returns exactly one `UpdateResult` per parsed plugin,
in listing order (`List.map` over the parsed list); every result carries the
plugin's id and current version, and a failed registry lookup yields the
error-message result (no latest version, no update flag) without aborting the
rest of the batch. -/
theorem checkPluginUpdates_results (env : Env) (p cwd o : String)
    (h1 : env.pathExists p = true)
    (h2 : env.pathExists (p ++ "/config.xml") = true)
    (h3 : env.exec "cordova plugin list" = Except.ok o) :
    (checkPluginUpdates env p cwd).1
        = Except.ok ((parsePluginList o).map (lookupResult env)) ∧
    (∀ q, (lookupResult env q).plugin = q.id ∧
      (lookupResult env q).currentVersion = q.version) ∧
    (∀ q e, env.exec (npmViewCommand q.id) = Except.error e →
      lookupResult env q =
        { plugin := q.id, currentVersion := q.version, latestVersion := none,
          hasUpdate := none, error := some "Failed to check for updates" }) := by
  refine ⟨?_, ?_, ?_⟩
  · simp [checkPluginUpdates, h1, h2, h3,
      checkLoop_eq_map env (parsePluginList o) (mem_parsePluginList_id o)]
  · intro q
    cases hx : env.exec (npmViewCommand q.id) <;> simp [lookupResult, hx]
  · intro q e hx
    simp [lookupResult, hx]

/-- Witness for claim C7: a world with one installed plugin whose registry
lookup fails. -/
theorem checkPluginUpdates_results_witness :
    (checkPluginUpdates envLookupFails "/proj" "/home").1
        = Except.ok ((parsePluginList "cordova-plugin-camera 1.0.0").map
            (lookupResult envLookupFails)) ∧
    lookupResult envLookupFails { id := "cordova-plugin-camera", version := "1.0.0" }
        = { plugin := "cordova-plugin-camera", currentVersion := "1.0.0",
            latestVersion := none, hasUpdate := none,
            error := some "Failed to check for updates" } :=
  ⟨(checkPluginUpdates_results envLookupFails "/proj" "/home"
      "cordova-plugin-camera 1.0.0" rfl rfl rfl).1,
   (checkPluginUpdates_results envLookupFails "/proj" "/home"
      "cordova-plugin-camera 1.0.0" rfl rfl rfl).2.2
     { id := "cordova-plugin-camera", version := "1.0.0" } "boom" rfl⟩

/-- Claim C8: the interactive updater emits exactly one prompt per eligible
result, in order, naming the plugin, current version and latest version, in
every world (so a failed update never suppresses later prompts); on a
case-insensitive `"y"` answer the head iteration runs `updatePlugin` (the
forcible remove followed by the re-add), and on any other answer it skips
straight to the next prompt with no events for that plugin. -/
theorem interactiveUpdater (env : Env) (toUpdate : List UpdateResult)
    (answers : List String) :
    (promptEvents (updateLoop env toUpdate answers)
        = toUpdate.map (fun r => Event.prompt (questionFor r))) ∧
    (∀ r rest ans, jsToLower (List.headD ans "") = "y" →
      updateLoop env (r :: rest) ans
        = Event.prompt (questionFor r) :: (updatePlugin env r.plugin).2
            ++ updateLoop env rest ans.tail) ∧
    (∀ r rest ans, jsToLower (List.headD ans "") ≠ "y" →
      updateLoop env (r :: rest) ans
        = Event.prompt (questionFor r) :: updateLoop env rest ans.tail) := by
  refine ⟨?_, ?_, ?_⟩
  · induction toUpdate generalizing answers with
    | nil => rfl
    | cons r rest ih =>
      simp only [updateLoop, promptEvents] at ih ⊢
      by_cases hy : jsToLower (List.headD answers "") = "y"
      · rw [if_pos hy]
        simp [List.filter_append, isPromptEvent, updatePlugin_filter_prompt, ih]
      · rw [if_neg hy]
        simp [List.filter_append, isPromptEvent, ih]
  · intro r rest ans hy
    simp only [updateLoop]
    rw [if_pos hy]
  · intro r rest ans hy
    simp only [updateLoop]
    rw [if_neg hy]
    simp

/-- Witness for claim C8: an affirmative `"Y"` answer triggers the update,
a `"n"` answer skips it, in a world where the update subprocesses fail. -/
theorem interactiveUpdater_witness :
    (updateLoop envExecFails [sampleResult] ["Y"]
      = Event.prompt (questionFor sampleResult)
          :: (updatePlugin envExecFails sampleResult.plugin).2
            ++ updateLoop envExecFails [] (List.tail ["Y"])) ∧
    (updateLoop envExecFails [sampleResult] ["n"]
      = Event.prompt (questionFor sampleResult)
          :: updateLoop envExecFails [] (List.tail ["n"])) :=
  ⟨(interactiveUpdater envExecFails [sampleResult] ["Y"]).2.1
      sampleResult [] ["Y"] (by decide),
   (interactiveUpdater envExecFails [sampleResult] ["n"]).2.2
      sampleResult [] ["n"] (by decide)⟩

/-- Claim C9: when both preconditions hold, the working directory is changed
to the project path before the plugin-listing subprocess runs (the first two
trace events are the `chdir` and the listing command), the `chdir` happens
exactly once, and the final working directory is the project path — whatever
the outcome of the listing and of the per-plugin lookups. -/
theorem cwd_not_restored (env : Env) (p cwd : String)
    (h1 : env.pathExists p = true)
    (h2 : env.pathExists (p ++ "/config.xml") = true) :
    (checkPluginUpdates env p cwd).2.1 = p ∧
    (checkPluginUpdates env p cwd).2.2.take 2
      = [Event.chdir p, Event.execCmd "cordova plugin list"] ∧
    (checkPluginUpdates env p cwd).2.2.filter isChdirEvent = [Event.chdir p] := by
  cases hx : env.exec "cordova plugin list" with
  | error e =>
    refine ⟨?_, ?_, ?_⟩ <;> simp [checkPluginUpdates, h1, h2, hx, isChdirEvent]
  | ok o =>
    refine ⟨?_, ?_, ?_⟩ <;>
      simp [checkPluginUpdates, h1, h2, hx, isChdirEvent, checkLoop_filter_chdir]

/-- Witness for claim C9 in the all-succeeding world. -/
theorem cwd_not_restored_witness :
    (checkPluginUpdates envAllOk "/proj" "/home").2.1 = "/proj" :=
  (cwd_not_restored envAllOk "/proj" "/home" rfl rfl).1

/-- Claim C10: `updatePlugin` invokes the forcible remove first; the add is
invoked exactly when the remove succeeded; it returns true exactly when both
subprocesses succeed, and on any failure it logs the failure and returns
false. -/
theorem updatePlugin_order (env : Env) (pluginId : String) :
    ((updatePlugin env pluginId).1 = true ↔
      (exceptIsOk (env.exec (removeCommand pluginId)) = true ∧
       exceptIsOk (env.exec (addCommand pluginId)) = true)) ∧
    execEvents (updatePlugin env pluginId).2
      = Event.execCmd (removeCommand pluginId)
          :: (match env.exec (removeCommand pluginId) with
              | Except.ok _ => [Event.execCmd (addCommand pluginId)]
              | Except.error _ => []) ∧
    ((updatePlugin env pluginId).1 = false →
      ∃ m, Event.logErr m ∈ (updatePlugin env pluginId).2) := by
  cases h1 : env.exec (removeCommand pluginId) with
  | error e =>
    refine ⟨?_, ?_, ?_⟩
    · simp [updatePlugin, h1, exceptIsOk]
    · simp [updatePlugin, h1, execEvents, isExecEvent]
    · intro hf
      exact ⟨"Failed to update " ++ pluginId ++ ": " ++ e, by simp [updatePlugin, h1]⟩
  | ok s =>
    cases h2 : env.exec (addCommand pluginId) with
    | error e =>
      refine ⟨?_, ?_, ?_⟩
      · simp [updatePlugin, h1, h2, exceptIsOk]
      · simp [updatePlugin, h1, h2, execEvents, isExecEvent]
      · intro hf
        exact ⟨"Failed to update " ++ pluginId ++ ": " ++ e,
          by simp [updatePlugin, h1, h2]⟩
    | ok t =>
      refine ⟨?_, ?_, ?_⟩
      · simp [updatePlugin, h1, h2, exceptIsOk]
      · simp [updatePlugin, h1, h2, execEvents, isExecEvent]
      · intro hf
        simp [updatePlugin, h1, h2] at hf

/-- Witness for claim C10: a failing remove logs and makes the call false. -/
theorem updatePlugin_order_witness :
    ∃ m, Event.logErr m ∈ (updatePlugin envExecFails "p").2 :=
  (updatePlugin_order envExecFails "p").2.2 rfl
